import Mathlib

/-!
Verification of the `chat_pro` AstrBot plugin (`src/main.py`).

The plugin keeps, per conversation (`unified_msg_origin`), a bounded list of
`(message_id, timestamp)` pairs for recently sent messages, and offers three
handlers:

* `detect_recall_keyword` — fires on every message event; when the trimmed,
  lower-cased text equals `"[recall]"`, the platform is `"aiocqhttp"`, the
  ledger for the conversation has at least two entries and the event is an
  aiocqhttp event, it deletes the second-to-last recorded message, sleeps
  0.5 s, deletes the last recorded (`[recall]`) message, pops both entries
  and stops event propagation — all inside a single `try` block.
* `record_sent_message` — after a send on `"aiocqhttp"` with an aiocqhttp
  event, ensures the conversation has a ledger and, when the message object
  carries a truthy `message_id`, appends `(message_id, time)` and evicts the
  head when the list exceeds 20 entries.
* `manual_recall` — the `/recall` command: checks platform and non-empty
  ledger, peeks the last entry, attempts deletion, and pops the entry only
  after the deletion call returned without raising.

The embedding below models transport deletion calls by two boolean outcome
parameters (whether each `client.api.call_action('delete_msg', ...)` raises)
and records the transport interaction as an explicit trace of events.
-/

namespace ChatPro

/-- A platform message identifier: the code treats it as an opaque value read
off `event.message_obj.message_id`; aiocqhttp uses integers, but strings are
possible, and Python truthiness distinguishes `0`/`""` from other values. -/
inductive MsgId where
  | int : Int → MsgId
  | str : String → MsgId
deriving DecidableEq, Repr

/-- Python truthiness of a `message_id` value (`if message_id:`). -/
def MsgId.truthy : MsgId → Bool
  | .int n => n != 0
  | .str s => s != ""

/-- Send timestamps (`time.time()`), modelled as rationals. -/
abbrev Timestamp := ℚ

/-- One ledger entry: `(message_id, timestamp)`. -/
abbrev Entry := MsgId × Timestamp

/-- The per-conversation list `self.sent_messages[umo]`, oldest first. -/
abbrev Ledger := List Entry

/-- ASCII whitespace, as stripped by Python's `str.strip()`. -/
def isSpaceChar (c : Char) : Bool :=
  c = ' ' || c = '\t' || c = '\n' || c = '\r' || c = '\x0b' || c = '\x0c'

/-- Python `str.strip()`: drop whitespace from both ends. -/
def pyStrip (s : String) : String :=
  ⟨((s.toList.dropWhile isSpaceChar).reverse.dropWhile isSpaceChar).reverse⟩

/-- Lower-case one ASCII character, as Python `str.lower()` does. -/
def lowerChar (c : Char) : Char :=
  if c.toNat ≥ 65 ∧ c.toNat ≤ 90 then Char.ofNat (c.toNat + 32) else c

/-- Python `str.lower()` on the ASCII range. -/
def pyLower (s : String) : String := ⟨s.toList.map lowerChar⟩

/-- `self.sent_messages`: a dict from `unified_msg_origin` to ledger,
modelled as an association list with at most one binding per key. -/
abbrev Registry := List (String × Ledger)

/-- `self.max_messages_per_session` (line 16). -/
def max_messages_per_session : Nat := 20

/-- Dict read: first binding of the key, if any (`self.sent_messages[umo]`,
`umo in self.sent_messages`). -/
def rlookup (k : String) : Registry → Option Ledger
  | [] => none
  | (k', l) :: rest => if k' = k then some l else rlookup k rest

/-- Dict write `self.sent_messages[k] = v`: overwrite the existing binding,
or add one at the end. -/
def rset (k : String) (v : Ledger) : Registry → Registry
  | [] => [(k, v)]
  | (k', v') :: rest => if k' = k then (k, v) :: rest else (k', v') :: rset k v rest

/-- The append-with-cap step of `record_sent_message` (lines 103–107):
`append((message_id, timestamp))` followed by `pop(0)` when the length
exceeds `max_messages_per_session`. -/
def ledgerAppend (l : Ledger) (e : Entry) : Ledger :=
  if (l ++ [e]).length > max_messages_per_session then (l ++ [e]).drop 1
  else l ++ [e]

/-- A fresh ledger after a whole sequence of recorded sends. -/
def appendAll (es : List Entry) : Ledger := es.foldl ledgerAppend []

/-- One observable transport interaction: a `delete_msg` call (with the id it
targets and whether the call returned without raising) or an
`asyncio.sleep`. -/
inductive TraceEv where
  | delete (id : MsgId) (ok : Bool)
  | sleep (d : ℚ)
deriving DecidableEq, Repr

/-- The `asyncio.sleep(0.5)` between the two deletions (line 61):
half a time unit. -/
def settle_delay : ℚ := mkRat 1 2

/-- Result of running `detect_recall_keyword` on one event: the registry
afterwards, the transport trace, whether `event.stop_event()` ran, and
whether the `except` branch logged a failure. -/
structure DetectResult where
  reg : Registry
  calls : List TraceEv
  stopped : Bool
  errorLogged : Bool
deriving DecidableEq, Repr

/-- `detect_recall_keyword` (lines 24–77). Parameters: the event text, the
conversation key, the platform name, whether the event is an
`AiocqhttpMessageEvent`, and whether each of the two `delete_msg` calls
succeeds (a `false` outcome means the awaited call raises, jumping to the
`except` block). -/
def detect_recall_keyword (msg umo platform : String) (isAio ok1 ok2 : Bool)
    (reg : Registry) : DetectResult :=
  let message_str := pyStrip msg
  if pyLower message_str == "[recall]" then
    if platform ≠ "aiocqhttp" then ⟨reg, [], false, false⟩
    else
      match rlookup umo reg with
      | none => ⟨reg, [], false, false⟩
      | some l =>
        match l.reverse with
        | (recall_msg_id, _) :: (target_msg_id, _) :: _ =>
          if ¬ isAio then ⟨reg, [], false, false⟩
          else if ¬ ok1 then
            ⟨reg, [.delete target_msg_id false], false, true⟩
          else if ¬ ok2 then
            ⟨reg, [.delete target_msg_id true, .sleep settle_delay,
                   .delete recall_msg_id false], false, true⟩
          else
            ⟨rset umo l.dropLast.dropLast reg,
             [.delete target_msg_id true, .sleep settle_delay,
              .delete recall_msg_id true], true, false⟩
        | _ => ⟨reg, [], false, false⟩
  else ⟨reg, [], false, false⟩

/-- Lines 93–94 of `record_sent_message`:
`if umo not in self.sent_messages: self.sent_messages[umo] = []`. -/
def ensureLedger (umo : String) (reg : Registry) : Registry :=
  match rlookup umo reg with
  | none => rset umo [] reg
  | some _ => reg

/-- `record_sent_message` (lines 80–112). `mid` is
`getattr(event.message_obj, 'message_id', None)`. -/
def record_sent_message (platform : String) (isAio : Bool) (mid : Option MsgId)
    (umo : String) (now : Timestamp) (reg : Registry) : Registry :=
  if platform ≠ "aiocqhttp" then reg
  else if ¬ isAio then reg
  else
    let reg1 := ensureLedger umo reg
    match mid with
    | some m =>
      if m.truthy then
        rset umo (ledgerAppend ((rlookup umo reg1).getD []) (m, now)) reg1
      else reg1
    | none => reg1

/-- The user-visible replies `manual_recall` can yield. -/
inductive Reply where
  | notSupported
  | nothingToRecall
  | wrongType
  | success
  | failed
deriving DecidableEq, Repr

/-- Result of running `manual_recall` on one command event. -/
structure ManualResult where
  reply : Reply
  reg : Registry
  calls : List TraceEv
deriving DecidableEq, Repr

/-- `manual_recall` (lines 115–151). `ok` is whether the single `delete_msg`
call returns without raising. -/
def manual_recall (platform : String) (isAio ok : Bool) (umo : String)
    (reg : Registry) : ManualResult :=
  if platform ≠ "aiocqhttp" then ⟨.notSupported, reg, []⟩
  else
    match rlookup umo reg with
    | none => ⟨.nothingToRecall, reg, []⟩
    | some l =>
      match l.getLast? with
      | none => ⟨.nothingToRecall, reg, []⟩
      | some (message_id, _) =>
        if ¬ isAio then ⟨.wrongType, reg, []⟩
        else if ok then
          ⟨.success, rset umo l.dropLast reg, [.delete message_id true]⟩
        else ⟨.failed, reg, [.delete message_id false]⟩

/-- The `.pop()` used by `detect_recall_keyword` (lines 70–71) and
`manual_recall` (line 142): remove the last entry. -/
def pop_last (l : Ledger) : Ledger := l.dropLast

section Lemmas

lemma length_ledgerAppend_le (l : Ledger) (e : Entry)
    (h : l.length ≤ max_messages_per_session) :
    (ledgerAppend l e).length ≤ max_messages_per_session := by
  unfold ledgerAppend
  split
  next hgt =>
    simp only [List.length_drop, List.length_append, List.length_singleton] at hgt ⊢
    omega
  next hle =>
    simp only [List.length_append, List.length_singleton] at hle ⊢
    omega

lemma foldl_ledgerAppend_eq (es : List Entry) :
    ∀ acc : Ledger, acc.length ≤ max_messages_per_session →
      List.foldl ledgerAppend acc es
        = (acc ++ es).drop ((acc ++ es).length - max_messages_per_session) := by
  induction es with
  | nil =>
    intro acc h
    simp [Nat.sub_eq_zero_of_le h]
  | cons e es ih =>
    intro acc h
    rw [List.foldl_cons, ih _ (length_ledgerAppend_le acc e h)]
    unfold ledgerAppend
    split
    next hgt =>
      have h20 : acc.length = max_messages_per_session := by
        simp only [List.length_append, List.length_singleton] at hgt
        omega
      rw [← List.drop_append_of_le_length (by simp), List.drop_drop]
      have harr : acc ++ [e] ++ es = acc ++ e :: es := by simp
      rw [harr]
      congr 1
      simp only [List.length_drop, List.length_append, List.length_singleton,
        List.length_cons]
      omega
    next hle =>
      have harr : acc ++ [e] ++ es = acc ++ e :: es := by simp
      rw [harr]

lemma rlookup_rset_self (k : String) (v : Ledger) (reg : Registry) :
    rlookup k (rset k v reg) = some v := by
  induction reg with
  | nil => simp [rset, rlookup]
  | cons p rest ih =>
    by_cases h : p.1 = k <;> simp [rset, rlookup, h, ih]

lemma rlookup_rset_ne (k k' : String) (v : Ledger) (reg : Registry)
    (h : k' ≠ k) : rlookup k' (rset k v reg) = rlookup k' reg := by
  have hk : k ≠ k' := Ne.symm h
  induction reg with
  | nil => simp [rset, rlookup, hk]
  | cons p rest ih =>
    by_cases hp : p.1 = k
    · simp [rset, rlookup, hp, hk]
    · simp [rset, rlookup, hp, ih]

lemma rlookup_ensureLedger_self (umo : String) (reg : Registry) :
    rlookup umo (ensureLedger umo reg) = some ((rlookup umo reg).getD []) := by
  unfold ensureLedger
  cases h : rlookup umo reg <;> simp [h, rlookup_rset_self]

lemma rlookup_ensureLedger_ne (umo k : String) (reg : Registry)
    (h : k ≠ umo) :
    rlookup k (ensureLedger umo reg) = rlookup k reg := by
  unfold ensureLedger
  cases h' : rlookup umo reg <;> simp [h', rlookup_rset_ne _ _ _ _ h]

end Lemmas

/-- C1: starting from the empty ledger a conversation is created with, any
sequence of recorded sends leaves the ledger with at most
`max_messages_per_session = 20` entries, and the ledger equals exactly the
suffix of the send sequence consisting of its 20 most recent entries in send
order (so beyond 20 sends the oldest entry was evicted first). -/
theorem C1_ledger_capacity_fifo (es : List Entry) :
    (appendAll es).length ≤ max_messages_per_session ∧
    appendAll es = es.drop (es.length - max_messages_per_session) := by
  have h := foldl_ledgerAppend_eq es [] (by simp)
  simp only [List.nil_append] at h
  refine ⟨?_, h⟩
  rw [appendAll, h]
  simp only [List.length_drop]
  omega

/-- A concrete registry: one conversation `"u"` whose ledger holds two
entries, message `1` (sent at time 1) then message `2` (sent at time 2). -/
def reg2 : Registry := [("u", [(MsgId.int 1, 1), (MsgId.int 2, 2)])]

/-- The ledger of `reg2`. -/
def ledger2 : Ledger := [(MsgId.int 1, 1), (MsgId.int 2, 2)]

/-- A concrete ledger at full capacity: 20 entries. -/
def l20 : Ledger := (List.range 20).map fun i => (MsgId.int i, (i : ℚ))

lemma marker_guard_true :
    (pyLower (pyStrip "[recall]") == "[recall]") = true := by decide

/-- C9 (amended): on a ledger strictly below its 20-entry capacity, an
append immediately followed by a pop of the last entry restores the ledger
exactly; at capacity this fails because the append evicts the oldest entry
(see the counterexample). -/
theorem C9_append_pop_last_roundtrip (l : Ledger) (e : Entry)
    (h : l.length < max_messages_per_session) :
    pop_last (ledgerAppend l e) = l := by
  unfold ledgerAppend pop_last
  rw [if_neg (by simp only [List.length_append, List.length_singleton]; omega)]
  simp

/-- Witness for `C9_append_pop_last_roundtrip` at the empty ledger. -/
theorem C9_append_pop_last_roundtrip_witness :
    ([] : Ledger).length < max_messages_per_session ∧
      pop_last (ledgerAppend [] (MsgId.int 1, 1)) = [] :=
  ⟨by decide, C9_append_pop_last_roundtrip [] (MsgId.int 1, 1) (by decide)⟩

/-- C9 counterexample: on a ledger already holding 20 entries, appending a
new entry and then popping the last one does not restore the original
ledger — the append evicted the oldest entry, so the round-trip loses it. -/
theorem C9_roundtrip_fails_at_capacity :
    pop_last (ledgerAppend l20 (MsgId.int 99, 99)) ≠ l20 := by decide

/-- C2 (amended): the code never strips an embedded marker or suppresses a
send. Any text whose stripped, lower-cased form is not exactly `"[recall]"`
— in particular text that contains the marker alongside other words — is
simply ignored: the handler makes no transport call, changes no state, does
not stop the event, and flags nothing for later deletion. -/
theorem C2_embedded_marker_ignored (msg umo platform : String)
    (isAio ok1 ok2 : Bool) (reg : Registry)
    (h : (pyLower (pyStrip msg) == "[recall]") = false) :
    detect_recall_keyword msg umo platform isAio ok1 ok2 reg
      = ⟨reg, [], false, false⟩ := by
  unfold detect_recall_keyword
  simp [h]

/-- Witness for `C2_embedded_marker_ignored` at `"hello [RECALL]"`. -/
theorem C2_embedded_marker_ignored_witness :
    detect_recall_keyword "hello [RECALL]" "u" "aiocqhttp" true true true reg2
      = ⟨reg2, [], false, false⟩ :=
  C2_embedded_marker_ignored "hello [RECALL]" "u" "aiocqhttp" true true true
    reg2 (by decide)

/-- C2 counterexample: with text `"hello [RECALL]"`, a conversation whose
ledger records the sent messages, a supporting platform and all transport
deletions set to succeed, the handler performs no transport call, leaves
the registry unchanged and recognizes no marker (the guard comparing the
stripped, lower-cased text with `"[recall]"` is false) — so the marker is
not removed and the sent message is never deleted, contrary to the claim. -/
theorem C2_no_strip_no_self_recall :
    detect_recall_keyword "hello [RECALL]" "u" "aiocqhttp" true true true reg2
      = ⟨reg2, [], false, false⟩ ∧
    (pyLower (pyStrip "hello [RECALL]") == "[recall]") = false := by decide

/-- C3 (amended): the two deletion calls are not independent — both run in
one `try` block. If the first (target) deletion raises, the second is never
attempted, the single failure is logged, and neither the ledger nor event
propagation changes; if the first succeeds and the second raises, both
calls appear on the trace, the failure is logged, and again nothing is
removed from the ledger and the event is not stopped. -/
theorem C3_first_failure_blocks_second (umo : String) (ok2 : Bool)
    (reg : Registry) (l : Ledger) (rid tid : MsgId) (rts tts : Timestamp)
    (rest : List Entry)
    (hl : rlookup umo reg = some l)
    (hrev : l.reverse = (rid, rts) :: (tid, tts) :: rest) :
    detect_recall_keyword "[recall]" umo "aiocqhttp" true false ok2 reg
      = ⟨reg, [.delete tid false], false, true⟩ ∧
    detect_recall_keyword "[recall]" umo "aiocqhttp" true true false reg
      = ⟨reg, [.delete tid true, .sleep settle_delay, .delete rid false],
         false, true⟩ := by
  unfold detect_recall_keyword
  simp [marker_guard_true, hl, hrev]

/-- Witness for `C3_first_failure_blocks_second` on `reg2`. -/
theorem C3_first_failure_blocks_second_witness :
    detect_recall_keyword "[recall]" "u" "aiocqhttp" true false true reg2
      = ⟨reg2, [.delete (MsgId.int 1) false], false, true⟩ ∧
    detect_recall_keyword "[recall]" "u" "aiocqhttp" true true false reg2
      = ⟨reg2, [.delete (MsgId.int 1) true, .sleep settle_delay,
                .delete (MsgId.int 2) false], false, true⟩ :=
  C3_first_failure_blocks_second "u" true reg2 ledger2 (MsgId.int 2)
    (MsgId.int 1) 2 1 [] (by decide) (by decide)

/-- C3 counterexample: ledger `[(1,·),(2,·)]`, recall fires, the first
deletion (target message `1`) raises — the resulting transport trace is
exactly one call: the deletion of the marker message `2` was never
attempted, contrary to the claim that the second deletion is independent of
the first. -/
theorem C3_second_deletion_not_attempted :
    (detect_recall_keyword "[recall]" "u" "aiocqhttp" true false true
        reg2).calls
      = [TraceEv.delete (MsgId.int 1) false] := by decide

/-- C4 (amended): ledger entries are removed only when both deletions
succeed, in which case the last two entries are popped together; if either
deletion raises, no entry is removed at all — even an entry whose own
deletion succeeded. -/
theorem C4_removal_requires_both_successes (umo : String) (ok1 ok2 : Bool)
    (reg : Registry) (l : Ledger) (rid tid : MsgId) (rts tts : Timestamp)
    (rest : List Entry)
    (hl : rlookup umo reg = some l)
    (hrev : l.reverse = (rid, rts) :: (tid, tts) :: rest) :
    (detect_recall_keyword "[recall]" umo "aiocqhttp" true ok1 ok2 reg).reg
      = if ok1 && ok2 then rset umo l.dropLast.dropLast reg else reg := by
  unfold detect_recall_keyword
  cases ok1 <;> cases ok2 <;> simp [marker_guard_true, hl, hrev]

/-- Witness for `C4_removal_requires_both_successes` on `reg2`. -/
theorem C4_removal_requires_both_successes_witness :
    (detect_recall_keyword "[recall]" "u" "aiocqhttp" true true false
        reg2).reg
      = if true && false then rset "u" ledger2.dropLast.dropLast reg2
        else reg2 :=
  C4_removal_requires_both_successes "u" true false reg2 ledger2
    (MsgId.int 2) (MsgId.int 1) 2 1 [] (by decide) (by decide)

/-- C4 counterexample: ledger `[(1,·),(2,·)]`, recall fires, the deletion of
the target message `1` succeeds but the deletion of the marker message `2`
raises — the trace shows the successful deletion of `1`, yet the registry is
unchanged: the entry for `1` is still in the ledger, contrary to the claim
that an entry is removed whenever its own deletion succeeds. -/
theorem C4_successful_deletion_entry_retained :
    (detect_recall_keyword "[recall]" "u" "aiocqhttp" true true false
        reg2).reg = reg2 ∧
    (detect_recall_keyword "[recall]" "u" "aiocqhttp" true true false
        reg2).calls
      = [TraceEv.delete (MsgId.int 1) true, TraceEv.sleep settle_delay,
         TraceEv.delete (MsgId.int 2) false] := by decide

/-- C5: whenever recall fires with two recorded messages on the supporting
platform and the first transport call does not raise (the only case in
which the second call happens at all), the transport trace is exactly:
deletion of the earlier-sent (second-to-last) message, then a sleep of the
configured `settle_delay = 1/2` time units, then deletion of the marker
(last-recorded) message — so the target deletion is issued strictly before
the marker deletion, with the settle delay between the two calls. -/
theorem C5_target_first_then_settle_delay (umo : String) (ok2 : Bool)
    (reg : Registry) (l : Ledger) (rid tid : MsgId) (rts tts : Timestamp)
    (rest : List Entry)
    (hl : rlookup umo reg = some l)
    (hrev : l.reverse = (rid, rts) :: (tid, tts) :: rest) :
    (detect_recall_keyword "[recall]" umo "aiocqhttp" true true ok2
        reg).calls
      = [.delete tid true, .sleep settle_delay, .delete rid ok2] := by
  unfold detect_recall_keyword
  cases ok2 <;> simp [marker_guard_true, hl, hrev]

/-- Witness for `C5_target_first_then_settle_delay` on `reg2`. -/
theorem C5_target_first_then_settle_delay_witness :
    (detect_recall_keyword "[recall]" "u" "aiocqhttp" true true true
        reg2).calls
      = [.delete (MsgId.int 1) true, .sleep settle_delay,
         .delete (MsgId.int 2) true] :=
  C5_target_first_then_settle_delay "u" true reg2 ledger2 (MsgId.int 2)
    (MsgId.int 1) 2 1 [] (by decide) (by decide)

/-- C8 (amended): `event.stop_event()` runs only when both deletions
succeed; on any deletion failure the handler falls into the `except` block
before reaching `stop_event`, so the inbound marker event keeps propagating
to downstream handlers. -/
theorem C8_stop_only_on_full_success (umo : String) (ok1 ok2 : Bool)
    (reg : Registry) (l : Ledger) (rid tid : MsgId) (rts tts : Timestamp)
    (rest : List Entry)
    (hl : rlookup umo reg = some l)
    (hrev : l.reverse = (rid, rts) :: (tid, tts) :: rest) :
    (detect_recall_keyword "[recall]" umo "aiocqhttp" true ok1 ok2
        reg).stopped = (ok1 && ok2) := by
  unfold detect_recall_keyword
  cases ok1 <;> cases ok2 <;> simp [marker_guard_true, hl, hrev]

/-- Witness for `C8_stop_only_on_full_success` on `reg2`. -/
theorem C8_stop_only_on_full_success_witness :
    (detect_recall_keyword "[recall]" "u" "aiocqhttp" true true true
        reg2).stopped = (true && true) :=
  C8_stop_only_on_full_success "u" true true reg2 ledger2 (MsgId.int 2)
    (MsgId.int 1) 2 1 [] (by decide) (by decide)

/-- C8 counterexample: recall fires on ledger `[(1,·),(2,·)]`, the deletion
of target message `1` succeeds and the deletion of marker message `2`
raises — a partial failure — and the event is not stopped: propagation to
downstream handlers is not suppressed, contrary to the claim that
completion with partial failure also suppresses propagation. -/
theorem C8_partial_failure_not_suppressed :
    (detect_recall_keyword "[recall]" "u" "aiocqhttp" true true false
        reg2).stopped = false ∧
    (detect_recall_keyword "[recall]" "u" "aiocqhttp" true true false
        reg2).errorLogged = true := by decide

/-- C6: a manual recall with a non-empty ledger on the supporting platform
peeks at the last entry without popping it; the deletion call targets that
entry; the entry is removed exactly when the deletion call runs and
succeeds (event of the aiocqhttp type, call does not raise); and on a
transport failure the user receives the failure reply while the whole
registry — hence the peeked entry — is left unchanged. -/
theorem C6_manual_recall_peek_then_commit (umo : String) (isAio ok : Bool)
    (reg : Registry) (l : Ledger) (e : Entry)
    (hl : rlookup umo reg = some l) (hlast : l.getLast? = some e) :
    rlookup umo (manual_recall "aiocqhttp" isAio ok umo reg).reg
      = some (if isAio && ok then l.dropLast else l) ∧
    (isAio = true → (manual_recall "aiocqhttp" isAio ok umo reg).calls
      = [.delete e.1 ok]) ∧
    (isAio = true → ok = false →
      (manual_recall "aiocqhttp" isAio ok umo reg).reply = .failed ∧
      (manual_recall "aiocqhttp" isAio ok umo reg).reg = reg) := by
  obtain ⟨mid, ts⟩ := e
  unfold manual_recall
  cases isAio <;> cases ok <;> simp [hl, hlast, rlookup_rset_self]

/-- Witness for `C6_manual_recall_peek_then_commit`: failed deletion of
message `2` in `reg2` leaves the ledger intact and reports failure. -/
theorem C6_manual_recall_peek_then_commit_witness :
    rlookup "u" (manual_recall "aiocqhttp" true false "u" reg2).reg
      = some (if true && false then ledger2.dropLast else ledger2) ∧
    (true = true → (manual_recall "aiocqhttp" true false "u" reg2).calls
      = [.delete (MsgId.int 2) false]) ∧
    (true = true → false = false →
      (manual_recall "aiocqhttp" true false "u" reg2).reply = .failed ∧
      (manual_recall "aiocqhttp" true false "u" reg2).reg = reg2) :=
  C6_manual_recall_peek_then_commit "u" true false reg2 ledger2
    (MsgId.int 2, 2) (by decide) (by decide)

/-- C7: a manual recall on a platform other than aiocqhttp, or for a
conversation with no ledger or an empty ledger, returns a user-visible
explanatory reply, makes zero transport calls, and leaves the registry
untouched. -/
theorem C7_manual_recall_unsupported_or_empty (platform umo : String)
    (isAio ok : Bool) (reg : Registry)
    (h : platform ≠ "aiocqhttp" ∨ rlookup umo reg = none ∨
      rlookup umo reg = some []) :
    ((manual_recall platform isAio ok umo reg).reply = .notSupported ∨
      (manual_recall platform isAio ok umo reg).reply = .nothingToRecall) ∧
    (manual_recall platform isAio ok umo reg).calls = [] ∧
    (manual_recall platform isAio ok umo reg).reg = reg := by
  unfold manual_recall
  rcases h with h | h | h
  · simp [h]
  · by_cases hp : platform = "aiocqhttp" <;> simp [hp, h]
  · by_cases hp : platform = "aiocqhttp" <;> simp [hp, h]

/-- Witness for `C7_manual_recall_unsupported_or_empty` on an unsupported
platform with an empty registry. -/
theorem C7_manual_recall_unsupported_or_empty_witness :
    ((manual_recall "discord" true true "u" []).reply = .notSupported ∨
      (manual_recall "discord" true true "u" []).reply
        = .nothingToRecall) ∧
    (manual_recall "discord" true true "u" []).calls = [] ∧
    (manual_recall "discord" true true "u" []).reg = [] :=
  C7_manual_recall_unsupported_or_empty "discord" "u" true true []
    (Or.inl (by decide))

/-- C10 (amended): the post-send recording appends an entry exactly when the
platform is `"aiocqhttp"`, the event is an aiocqhttp event, and the message
object carries a truthy `message_id`; on any other platform or non-aiocqhttp
event the registry is returned unchanged (so unsupported platforms never
accumulate history); and when only the `message_id` is missing or falsy, no
entries are appended to any ledger — but, unlike the original claim, an
empty ledger is still created in the registry for the conversation if it
had none. -/
theorem C10_record_only_on_truthy_aiocqhttp (platform umo : String)
    (isAio : Bool) (mid : Option MsgId) (now : Timestamp) (reg : Registry) :
    (platform ≠ "aiocqhttp" ∨ isAio = false →
      record_sent_message platform isAio mid umo now reg = reg) ∧
    ((mid.map MsgId.truthy).getD false = false → ∀ k,
      (rlookup k (record_sent_message platform isAio mid umo now reg)).getD
          []
        = (rlookup k reg).getD []) ∧
    (platform = "aiocqhttp" → isAio = true → ∀ m, mid = some m →
      m.truthy = true →
      rlookup umo (record_sent_message platform isAio mid umo now reg)
        = some (ledgerAppend ((rlookup umo reg).getD []) (m, now)) ∧
      ∀ k, k ≠ umo →
        rlookup k (record_sent_message platform isAio mid umo now reg)
          = rlookup k reg) := by
  refine ⟨?_, ?_, ?_⟩
  · rintro (h | h) <;> unfold record_sent_message <;> simp [h]
  · intro h k
    unfold record_sent_message
    by_cases hp : platform = "aiocqhttp"
    swap
    · simp [hp]
    cases isAio
    · simp
    by_cases hk : k = umo
    all_goals cases mid with
      | none =>
        simp [hp, hk, rlookup_ensureLedger_self, rlookup_ensureLedger_ne]
      | some m =>
        have hm : m.truthy = false := by simpa using h
        simp [hp, hk, hm, rlookup_ensureLedger_self, rlookup_ensureLedger_ne]
  · rintro hp hAio m rfl hm
    unfold record_sent_message
    constructor
    · simp [hp, hAio, hm, rlookup_rset_self, rlookup_ensureLedger_self]
    · intro k hk
      simp [hp, hAio, hm, rlookup_rset_ne _ _ _ _ hk,
        rlookup_ensureLedger_ne _ _ _ hk]

/-- Witness for `C10_record_only_on_truthy_aiocqhttp`: recording message `5`
on aiocqhttp in an empty registry creates the ledger `[(5, 0)]`. -/
theorem C10_record_only_on_truthy_aiocqhttp_witness :
    rlookup "u" (record_sent_message "aiocqhttp" true (some (MsgId.int 5))
        "u" 0 [])
      = some (ledgerAppend ((rlookup "u" ([] : Registry)).getD [])
          (MsgId.int 5, 0)) :=
  ((C10_record_only_on_truthy_aiocqhttp "aiocqhttp" "u" true
      (some (MsgId.int 5)) 0 []).2.2 rfl rfl (MsgId.int 5) rfl rfl).1

/-- C10 counterexample: a post-send event on aiocqhttp whose message object
has no `message_id` (`getattr` yields `None`) still mutates the registry —
a fresh empty ledger is created under the conversation key, taking the
registry from `[]` to `[("u", [])]`, contrary to the claim that the
registry is left unchanged in that case. -/
theorem C10_registry_mutated_without_message_id :
    record_sent_message "aiocqhttp" true none "u" 0 []
      = [("u", [])] ∧ ([("u", [])] : Registry) ≠ [] := by decide

end ChatPro
